import Mathlib

/-!
A shallow embedding of the logzai-otlp-js client core (src/logzai-base.ts,
src/browser.ts) and its two instrumentation plugins (src/plugins/express.ts,
src/plugins/browser.ts), with theorems checking the natural-language
specification against the code.

Conventions of the embedding:
* JavaScript objects used as attribute bags are modelled as association
  lists `Attrs`; the observation function `lookupAttr` returns the value of
  the LAST binding of a key, which matches the override semantics of object
  spread (`{...attrs, k: v}`) and of `Object.assign` / later property writes.
* The OpenTelemetry logger is external: the only behaviour of `emit` the
  code relies on is "throws iff `this.logger` is unset, otherwise produces a
  log record".  A thrown JS exception is an `Except.error`.
* Plugin setup functions and cleanup callables are effectful JS values; a
  cleanup is identified by a numeric id, and whether a given cleanup throws
  (or rejects) is an environment `fails : Nat → Bool`.  A plugin setup call
  is represented by its outcome: `Except String (Option Nat)` — either the
  thrown error, or the optional cleanup it returned.
-/

/-- An attribute value: string, number, boolean, or JS `undefined`. -/
inductive AttrVal where
  | str (s : String)
  | num (n : Nat)
  | bool (b : Bool)
  | undef
deriving DecidableEq, Repr

/-- A JS attribute object, as an insertion-ordered association list. -/
abbrev Attrs := List (String × AttrVal)

/-- The value a JS property read sees: the last binding of the key wins,
as with object spread and later assignments. -/
def lookupAttr : Attrs → String → Option AttrVal
  | [], _ => none
  | (k, v) :: rest, key =>
    match lookupAttr rest key with
    | some w => some w
    | none => if k = key then some v else none

/-- Severities used by the facade (`SeverityNumber` of the OTel API). -/
inductive SeverityNumber where
  | debug
  | info
  | warn
  | error
  | fatal
deriving DecidableEq, Repr

/-- A log record as handed to `this.logger.emit` (src/logzai-base.ts:97). -/
structure LogRecord where
  body : String
  severityNumber : SeverityNumber
  attributes : Attrs
deriving DecidableEq, Repr

/-- A JS `Error` value: `name`, `message` and optional `stack`. -/
structure JsError where
  name : String
  message : String
  stack : Option String
deriving DecidableEq, Repr

/-- `true` when the `Except` models a JS call that threw. -/
def throwsExc (r : Except String LogRecord) : Bool :=
  match r with
  | Except.error _ => true
  | Except.ok _ => false

/-- A registry entry (src/plugins/types.ts `PluginEntry`): the name and the
stored cleanup.  The plugin function itself is stored too but never read
back; the cleanup callable is identified by a numeric id. -/
structure PluginEntry where
  name : String
  cleanupId : Option Nat
deriving DecidableEq, Repr

namespace LogzAIBase

/-- `LogzAIBase.emit` (src/logzai-base.ts:62): throws when `this.logger` is
unset, otherwise forwards the record to the backend logger.  The console
mirroring branch only formats a line for the console sink and cannot throw,
so it is not part of the observable result. -/
def emit (loggerInit : Bool) (sev : SeverityNumber) (body : String)
    (attributes : Attrs) : Except String LogRecord :=
  if loggerInit = false then Except.error ("logzai not initialized")
  else Except.ok ⟨body, sev, attributes⟩

/-- `LogzAIBase.info` (src/logzai-base.ts:115). -/
def info (loggerInit : Bool) (msg : String) (attrs : Attrs) :
    Except String LogRecord :=
  emit loggerInit SeverityNumber.info msg attrs

/-- `LogzAIBase.debug` (src/logzai-base.ts:116). -/
def debug (loggerInit : Bool) (msg : String) (attrs : Attrs) :
    Except String LogRecord :=
  emit loggerInit SeverityNumber.debug msg attrs

/-- `LogzAIBase.warn` (src/logzai-base.ts:117). -/
def warn (loggerInit : Bool) (msg : String) (attrs : Attrs) :
    Except String LogRecord :=
  emit loggerInit SeverityNumber.warn msg attrs

/-- `LogzAIBase.error` (src/logzai-base.ts:118). -/
def error (loggerInit : Bool) (msg : String) (attrs : Attrs) :
    Except String LogRecord :=
  emit loggerInit SeverityNumber.error msg attrs

/-- The enriched attribute object built by `LogzAIBase.exception`
(src/logzai-base.ts:121): `{...attrs, is_exception: true, 'exception.type':
error.name, 'exception.message': error.message, 'exception.stacktrace':
error.stack || ''}` — the four literal keys come after the spread, so they
override identically-named keys of `attrs`. -/
def exceptionAttrs (attrs : Attrs) (err : JsError) : Attrs :=
  attrs ++
    [("is_exception", AttrVal.bool true),
     ("exception.type", AttrVal.str err.name),
     ("exception.message", AttrVal.str err.message),
     ("exception.stacktrace", AttrVal.str (err.stack.getD ""))]

/-- `LogzAIBase.exception` (src/logzai-base.ts:120): emit at ERROR severity
with the enriched attributes. -/
def exception (loggerInit : Bool) (msg : String) (err : JsError)
    (attrs : Attrs) : Except String LogRecord :=
  emit loggerInit SeverityNumber.error msg (exceptionAttrs attrs err)

/-- `this.pluginRegistry.has(name)` on the insertion-ordered registry. -/
def hasPlugin (registry : List PluginEntry) (name : String) : Bool :=
  registry.any (fun e => e.name == name)

/-- Observable outcome of one `plugin(name, pluginFn, params)` call. -/
structure RegisterResult where
  registry : List PluginEntry
  thrown : Option String
  warned : Bool
  pluginInvoked : Bool
deriving Repr

/-- `LogzAIBase.plugin` (src/browser.ts:150): duplicate names are rejected
with a console warning and nothing else happens; otherwise the plugin setup
is invoked — if it throws the error is re-thrown and no entry is stored, if
it succeeds the entry (with the returned cleanup) is appended.  `pluginFn`
is the outcome of the setup call `plugin(this, params)`. -/
def plugin (registry : List PluginEntry) (name : String)
    (pluginFn : Except String (Option Nat)) : RegisterResult :=
  if hasPlugin registry name then
    ⟨registry, none, true, false⟩
  else
    match pluginFn with
    | Except.error e => ⟨registry, some e, false, true⟩
    | Except.ok cleanup => ⟨registry ++ [⟨name, cleanup⟩], none, false, true⟩

/-- The cleanup loop of `LogzAIBase.shutdown` (src/browser.ts:207): walk the
registry in insertion order; for each entry with a cleanup, await it inside
`try`/`catch`, reporting (never re-throwing) a failure.  Returns the ids
invoked, in order, and the reported error messages, in order. -/
def runCleanups (fails : Nat → Bool) :
    List PluginEntry → List Nat × List String
  | [] => ([], [])
  | e :: rest =>
    match e.cleanupId with
    | none => runCleanups fails rest
    | some c =>
      let tail := runCleanups fails rest
      (c :: tail.1,
       if fails c then ("Error cleaning up plugin " ++ e.name) :: tail.2
       else tail.2)

/-- Observable outcome of `shutdown()` restricted to the plugin registry. -/
structure ShutdownResult where
  registry : List PluginEntry
  invoked : List Nat
  reportedErrors : List String
deriving Repr

/-- `LogzAIBase.shutdown` (src/browser.ts:205): run every stored cleanup in
insertion order (failures caught and reported), then clear the registry.
The subsequent provider shutdown is the external backend's concern. -/
def shutdown (fails : Nat → Bool) (registry : List PluginEntry) :
    ShutdownResult :=
  let r := runCleanups fails registry
  ⟨[], r.1, r.2⟩

end LogzAIBase

/-- A token of the regular expression `'^' + skipPath.replace(/\*/g, '.*') +
'$'` built by `shouldSkipPath` (src/plugins/express.ts:73): `anySeq` is the
`.*` a wildcard compiles to, `anyOne` the regex metacharacter `.` when it
occurs in the pattern itself, `lit c` an ordinary literal character.  The
model covers patterns built from ordinary characters, `.` and `*` (other
regex metacharacters do not occur in path patterns). -/
inductive RTok where
  | anySeq
  | anyOne
  | lit (c : Char)
deriving DecidableEq, Repr

/-- Compile one skip pattern to the token list of its anchored regex. -/
def compileGlob : List Char → List RTok
  | [] => []
  | c :: rest =>
    (if c = '*' then RTok.anySeq
     else if c = '.' then RTok.anyOne
     else RTok.lit c) :: compileGlob rest

/-- Executable anchored matcher for the compiled pattern: the whole input
must be consumed, and `anySeq` may absorb any (possibly empty) run of
characters — `regex.test(path)` on the anchored regex. -/
def rmatch : List RTok → List Char → Bool
  | [], s => s.isEmpty
  | RTok.lit c :: ts, s =>
    match s with
    | [] => false
    | d :: s2 => c == d && rmatch ts s2
  | RTok.anyOne :: ts, s =>
    match s with
    | [] => false
    | _ :: s2 => rmatch ts s2
  | RTok.anySeq :: ts, s => s.tails.any (fun s2 => rmatch ts s2)

/-- Declarative anchored-regex semantics: `anySeq` matches an arbitrary
sequence `w`, `anyOne` a single arbitrary character, `lit c` exactly `c`. -/
inductive GMatch : List RTok → List Char → Prop where
  | nil : GMatch [] []
  | lit (c : Char) (ts : List RTok) (s : List Char) :
      GMatch ts s → GMatch (RTok.lit c :: ts) (c :: s)
  | one (c : Char) (ts : List RTok) (s : List Char) :
      GMatch ts s → GMatch (RTok.anyOne :: ts) (c :: s)
  | seq (w : List Char) (ts : List RTok) (s : List Char) :
      GMatch ts s → GMatch (RTok.anySeq :: ts) (w ++ s)

/-- The fields of the Express request object the middleware reads.  Where
the code serializes with `JSON.stringify`, the model carries the serialized
string directly: `queryJson` is `JSON.stringify(req.query)` when the query
object has at least one key (`none` otherwise), `bodyJson` is
`JSON.stringify(req.body)` when `req.body` is truthy. -/
structure Req where
  method : String
  url : String
  path : String
  routePath : Option String
  hostname : String
  protocol : String
  userAgent : Option String
  ip : Option String
  connectionRemoteAddress : Option String
  queryJson : Option String
  bodyJson : Option String

/-- `ExpressPluginConfig` (src/plugins/types.ts:67): `app` is the
truthiness of the supplied Express application instance. -/
structure ExpressPluginConfig where
  app : Bool
  logRequests : Bool
  logResponses : Bool
  captureErrors : Bool
  requestFilter : Option (Req → Bool)
  contextInjector : Option (Req → Attrs)
  slowRequestThreshold : Option Nat
  skipPaths : List String
  logRequestBody : Bool
  logResponseBody : Bool

/-- The attribute value a possibly-undefined string property yields. -/
def optStr : Option String → AttrVal
  | some s => AttrVal.str s
  | none => AttrVal.undef

/-- `shouldSkipPath` (src/plugins/express.ts:70): a pattern containing a
wildcard is compiled to the anchored regex and tested; any other pattern
matches by exact string equality. -/
def shouldSkipPath (skipPaths : List String) (path : String) : Bool :=
  skipPaths.any (fun sp =>
    if sp.toList.contains '*' then rmatch (compileGlob sp.toList) path.toList
    else path == sp)

/-- `getBaseAttributes` (src/plugins/express.ts:97): the fixed HTTP
attributes, then the query (when present), then the request body (when
enabled and present), then the `contextInjector` output merged last. -/
def getBaseAttributes (config : ExpressPluginConfig) (req : Req) : Attrs :=
  ([("http.method", AttrVal.str req.method),
    ("http.url", AttrVal.str req.url),
    ("http.path", AttrVal.str req.path),
    ("http.route", AttrVal.str (req.routePath.getD req.path)),
    ("http.host", AttrVal.str req.hostname),
    ("http.user_agent", optStr req.userAgent),
    ("http.remote_addr",
      optStr (req.ip.orElse (fun _ => req.connectionRemoteAddress)))] ++
   (match req.queryJson with
    | some q => [("http.query", AttrVal.str q)]
    | none => [])) ++
  ((match config.logRequestBody, req.bodyJson with
    | true, some b => [("http.request_body", AttrVal.str b)]
    | _, _ => []) ++
   (match config.contextInjector with
    | some inj => inj req
    | none => []))

/-- `(duration / 1000).toFixed(2)` (src/plugins/express.ts:209) for an
integer millisecond duration: seconds with two decimals, rounding to the
nearest centisecond.  (JS computes this on a binary double; the rounding
agrees on the concrete durations used here.) -/
def durationSeconds (durationMs : Nat) : String :=
  let centis := (durationMs + 5) / 10
  let frac := centis % 100
  toString (centis / 100) ++ "." ++
    (if frac < 10 then "0" ++ toString frac else toString frac)

/-- The response-summary message (src/plugins/express.ts:210):
`method path -> status  durationSeconds s` (two spaces before the
duration). -/
def responseMessage (req : Req) (statusCode durationMs : Nat) : String :=
  req.method ++ " " ++ req.path ++ " -> " ++ toString statusCode ++
    "  " ++ durationSeconds durationMs ++ "s"

/-- The `http.response_body` attribute added when `logResponseBody` is on
and the captured body is truthy (src/plugins/express.ts:202; an
empty-string body is falsy in JS and skipped). -/
def responseBodyAttr (config : ExpressPluginConfig)
    (responseBody : Option String) : Attrs :=
  match responseBody with
  | some b =>
    if config.logResponseBody && b ≠ "" then
      [("http.response_body", AttrVal.str b)]
    else []
  | none => []

/-- The attribute object of the response-summary log
(src/plugins/express.ts:194): base attributes, status, duration, the
`log.type` marker, then the captured response body when enabled. -/
def responseLogAttrs (config : ExpressPluginConfig) (req : Req)
    (statusCode durationMs : Nat) (responseBody : Option String) : Attrs :=
  (getBaseAttributes config req ++
   [("http.status_code", AttrVal.num statusCode),
    ("http.duration_ms", AttrVal.num durationMs),
    ("log.type", AttrVal.str ("http.response"))]) ++
  responseBodyAttr config responseBody

/-- OTel span status code as set by the middleware. -/
inductive SpanStatusCode where
  | unset
  | ok
  | error
deriving DecidableEq, Repr

/-- A span status `{code, message?}`. -/
structure SpanStatus where
  code : SpanStatusCode
  message : Option String
deriving DecidableEq, Repr

/-- Everything observable about one run of the patched `res.end`
(src/plugins/express.ts:175): the attributes and status set on the span,
the log records emitted, whether `span.end()` ran, whether the captured
original `res.end` ran, and the JS exception that escaped, if any. -/
structure EndResult where
  spanAttributes : Attrs
  spanStatus : SpanStatus
  logs : List LogRecord
  spanEnded : Bool
  originalEndCalled : Bool
  thrown : Option String

/-- The patched `res.end` (src/plugins/express.ts:175): set span
attributes and status from the response, then — when response logging is
on — build the summary attributes and message, emit the summary at a
severity chosen by status class, emit the extra slow-request warning when
a (truthy) threshold is exceeded, and only then end the span and call the
captured original `res.end`.  There is no `try`/`finally`: a logging call
that throws propagates out before `span.end()` and the original finalizer
run. -/
def resEnd (loggerInit : Bool) (config : ExpressPluginConfig) (req : Req)
    (statusCode durationMs : Nat) (responseBody : Option String) :
    EndResult :=
  let spanAttrs : Attrs :=
    [("http.status_code", AttrVal.num statusCode),
     ("http.duration_ms", AttrVal.num durationMs)]
  let spanStatus : SpanStatus :=
    if 400 ≤ statusCode then
      ⟨SpanStatusCode.error, some ("HTTP " ++ toString statusCode)⟩
    else ⟨SpanStatusCode.ok, none⟩
  if config.logResponses then
    let attrs := responseLogAttrs config req statusCode durationMs
      responseBody
    let message := responseMessage req statusCode durationMs
    let summaryRes :=
      if 500 ≤ statusCode then LogzAIBase.error loggerInit message attrs
      else if 400 ≤ statusCode then LogzAIBase.warn loggerInit message attrs
      else LogzAIBase.info loggerInit message attrs
    match summaryRes with
    | Except.error e => ⟨spanAttrs, spanStatus, [], false, false, some e⟩
    | Except.ok summary =>
      match config.slowRequestThreshold with
      | some threshold =>
        if 0 < threshold ∧ threshold < durationMs then
          match LogzAIBase.warn loggerInit
              ("Slow request detected: " ++ req.method ++ " " ++ req.path)
              (attrs ++
               [("log.type", AttrVal.str ("http.slow_request")),
                ("http.threshold_ms", AttrVal.num threshold)]) with
          | Except.error e =>
            ⟨spanAttrs, spanStatus, [summary], false, false, some e⟩
          | Except.ok slow =>
            ⟨spanAttrs, spanStatus, [summary, slow], true, true, none⟩
        else ⟨spanAttrs, spanStatus, [summary], true, true, none⟩
      | none => ⟨spanAttrs, spanStatus, [summary], true, true, none⟩
  else ⟨spanAttrs, spanStatus, [], true, true, none⟩

/-- Observable outcome of the entry phase of `loggingMiddleware`
(src/plugins/express.ts:83): whether the request was skipped by
`skipPaths`, rejected by `requestFilter`, whether a span was started,
the request log emitted, whether `res.end`/`res.json`/`res.send` were
patched, whether `next()` ran, and any escaped exception. -/
structure MiddlewareEntryResult where
  skipped : Bool
  filteredOut : Bool
  spanCreated : Bool
  logs : List LogRecord
  endPatched : Bool
  nextCalled : Bool
  thrown : Option String

/-- The body run for a request that is neither skipped nor filtered out:
the span is started first; then, inside the span context, the request log
is attempted (it can throw, in which case the response hooks are never
patched and `next()` never runs), then the response hooks are patched and
`next()` is called. -/
def loggingMiddlewareProceed (loggerInit : Bool)
    (config : ExpressPluginConfig) (req : Req) : MiddlewareEntryResult :=
  if config.logRequests then
    match LogzAIBase.info loggerInit (req.method ++ " " ++ req.path)
        (getBaseAttributes config req ++
         [("log.type", AttrVal.str ("http.request"))]) with
    | Except.error e => ⟨false, false, true, [], false, false, some e⟩
    | Except.ok rec => ⟨false, false, true, [rec], true, true, none⟩
  else ⟨false, false, true, [], true, true, none⟩

/-- The entry phase of `loggingMiddleware` (src/plugins/express.ts:83):
requests whose path matches `skipPaths` go straight to `next()` — no span,
no logs, no response patching; likewise requests the `requestFilter`
rejects. -/
def loggingMiddleware (loggerInit : Bool) (config : ExpressPluginConfig)
    (req : Req) : MiddlewareEntryResult :=
  if shouldSkipPath config.skipPaths req.path then
    ⟨true, false, false, [], false, true, none⟩
  else
    match config.requestFilter with
    | some f =>
      if f req then loggingMiddlewareProceed loggerInit config req
      else ⟨false, true, false, [], false, true, none⟩
    | none => loggingMiddlewareProceed loggerInit config req

/-- `expressPlugin` setup (src/plugins/express.ts:42) as the registry sees
it: with no config or a falsy `config.app` it throws the configuration
error; otherwise it patches the app, emits the initialization log (which
throws when the facade was never initialized), and returns its cleanup
(modelled as cleanup id 0 — restore `app.response.json`/`send`). -/
def expressPluginSetup (loggerInit : Bool)
    (config : Option ExpressPluginConfig) : Except String (Option Nat) :=
  match config with
  | none => Except.error ("expressPlugin: app instance is required in config")
  | some c =>
    if c.app = false then
      Except.error ("expressPlugin: app instance is required in config")
    else
      match LogzAIBase.info loggerInit ("Express plugin initialized")
          [("plugin.name", AttrVal.str ("express"))] with
      | Except.error e => Except.error e
      | Except.ok _ => Except.ok (some 0)

/-- `BrowserPluginConfig` (src/plugins/types.ts:28).  On the `onerror`
path the filter and formatter are applied to the Error-shaped value. -/
structure BrowserPluginConfig where
  captureErrors : Bool
  captureUnhandledRejections : Bool
  errorFilter : Option (JsError → Bool)
  contextInjector : Option (Unit → Attrs)
  messageFormatter : Option (JsError → String)

/-- The ambient browser values the handler reads:
`window.location.href`, `navigator.userAgent`, `new Date().toISOString()`. -/
structure BrowserEnv where
  locationHref : String
  userAgent : String
  nowIso : String

/-- Everything observable about one invocation of the installed
`window.onerror` handler (src/plugins/browser.ts:47): the exception logs
emitted, an internal exception swallowed by the `try`/`catch` (if any),
whether the previously-installed handler was invoked, and the handler's
return value. -/
structure ErrorHandlerResult where
  logs : List LogRecord
  caughtInternal : Option String
  previousInvoked : Bool
  returned : Bool

/-- `error || new Error(typeof message === 'string' ? message :
'Unknown error')` (src/plugins/browser.ts:56); `message` is `none` when
the browser passed an Event rather than a string. -/
def normalizeOnError (message : Option String) (error : Option JsError) :
    JsError :=
  match error with
  | some e => e
  | none => ⟨"Error", message.getD "Unknown error", none⟩

/-- The `window.onerror` handler installed by the browser plugin
(src/plugins/browser.ts:47).  `previousReturn` is `some rv` when a
previous handler was installed (and returns `rv`), `none` otherwise.
When the `errorFilter` rejects the normalized error the handler returns
`false` at once — before the code that chains to the previous handler.
An exception inside the `try` block (e.g. the facade throwing because it
was never initialized) is caught, reported to the console, and does not
stop the chaining. -/
def errorHandler (loggerInit : Bool) (config : BrowserPluginConfig)
    (env : BrowserEnv) (previousReturn : Option Bool)
    (message : Option String) (source : Option String)
    (lineno colno : Option Nat) (error : Option JsError) :
    ErrorHandlerResult :=
  let err := normalizeOnError message error
  let filteredOut : Bool :=
    match config.errorFilter with
    | some f => !(f err)
    | none => false
  if filteredOut then ⟨[], none, false, false⟩
  else
    let errorMessage :=
      match config.messageFormatter with
      | some fmt => fmt err
      | none => "JavaScript Exception: " ++ err.message
    let attributes : Attrs :=
      [("errorType", AttrVal.str ("javascript-error")),
       ("source", AttrVal.str (source.getD "unknown")),
       ("lineno", match lineno with
         | some n => AttrVal.num n
         | none => AttrVal.undef),
       ("colno", match colno with
         | some n => AttrVal.num n
         | none => AttrVal.undef),
       ("url", AttrVal.str env.locationHref),
       ("userAgent", AttrVal.str env.userAgent),
       ("timestamp", AttrVal.str env.nowIso)] ++
      (match config.contextInjector with
       | some inj => inj ()
       | none => [])
    let logged :=
      match LogzAIBase.exception loggerInit errorMessage err attributes with
      | Except.ok rec => (([rec] : List LogRecord), (none : Option String))
      | Except.error e => ([], some e)
    match previousReturn with
    | some rv => ⟨logged.1, logged.2, true, rv⟩
    | none => ⟨logged.1, logged.2, false, false⟩

/-- `true` for a record carrying the response-summary marker
`'log.type': 'http.response'`. -/
def isResponseSummary (rec : LogRecord) : Bool :=
  lookupAttr rec.attributes "log.type" == some (AttrVal.str ("http.response"))

/-- `true` for a record carrying the slow-request marker
`'log.type': 'http.slow_request'`. -/
def isSlowRequestLog (rec : LogRecord) : Bool :=
  lookupAttr rec.attributes "log.type" ==
    some (AttrVal.str ("http.slow_request"))

/-! ## Helper lemmas -/

/-- Looking a key up in a concatenation: the later (right) part wins. -/
theorem lookupAttr_append (a b : Attrs) (k : String) :
    lookupAttr (a ++ b) k =
      match lookupAttr b k with
      | some w => some w
      | none => lookupAttr a k := by
  induction a with
  | nil => cases h : lookupAttr b k <;> simp [lookupAttr, h]
  | cons hd tl ih =>
    obtain ⟨k1, v1⟩ := hd
    cases hb : lookupAttr b k <;>
      cases ht : lookupAttr tl k <;>
        simp [lookupAttr, List.append_eq, ih, hb, ht]

/-- The response-body attribute never binds `log.type`. -/
theorem lookupAttr_responseBodyAttr_logType (config : ExpressPluginConfig)
    (responseBody : Option String) :
    lookupAttr (responseBodyAttr config responseBody) "log.type" = none := by
  rcases responseBody with _ | b
  · rfl
  · by_cases h : config.logResponseBody = true ∧ ¬b = "" <;>
      simp [responseBodyAttr, h, lookupAttr]

/-- The response-summary attributes carry `log.type = http.response`
whatever the request, configuration and injected context are. -/
theorem lookupAttr_responseLogAttrs_logType (config : ExpressPluginConfig)
    (req : Req) (statusCode durationMs : Nat)
    (responseBody : Option String) :
    lookupAttr (responseLogAttrs config req statusCode durationMs
      responseBody) "log.type" = some (AttrVal.str ("http.response")) := by
  unfold responseLogAttrs
  rw [lookupAttr_append, lookupAttr_responseBodyAttr_logType]
  rw [lookupAttr_append]
  simp [lookupAttr]

/-- The slow-request attributes override `log.type` to
`http.slow_request`. -/
theorem lookupAttr_slowAttrs_logType (config : ExpressPluginConfig)
    (req : Req) (statusCode durationMs threshold : Nat)
    (responseBody : Option String) :
    lookupAttr (responseLogAttrs config req statusCode durationMs
        responseBody ++
      [("log.type", AttrVal.str ("http.slow_request")),
       ("http.threshold_ms", AttrVal.num threshold)]) "log.type" =
      some (AttrVal.str ("http.slow_request")) := by
  rw [lookupAttr_append]
  simp [lookupAttr]

/-- The executable matcher decides the declarative anchored-regex
semantics. -/
theorem rmatch_iff_GMatch (ts : List RTok) :
    ∀ s : List Char, rmatch ts s = true ↔ GMatch ts s := by
  induction ts with
  | nil =>
    intro s
    simp only [rmatch, List.isEmpty_iff]
    constructor
    · rintro rfl; exact GMatch.nil
    · intro h; cases h; rfl
  | cons t ts ih =>
    intro s
    cases t with
    | anySeq =>
      simp only [rmatch, List.any_eq_true, List.mem_tails]
      constructor
      · rintro ⟨s2, ⟨w, rfl⟩, h⟩
        exact GMatch.seq w ts s2 ((ih s2).mp h)
      · intro h
        cases h with
        | seq w ts s2 h2 => exact ⟨s2, ⟨w, rfl⟩, (ih s2).mpr h2⟩
    | anyOne =>
      cases s with
      | nil =>
        simp only [rmatch, Bool.false_eq_true, false_iff]
        intro h; cases h
      | cons c s2 =>
        simp only [rmatch, ih]
        constructor
        · intro h; exact GMatch.one c ts s2 h
        · intro h; cases h; assumption
    | lit c =>
      cases s with
      | nil =>
        simp only [rmatch, Bool.false_eq_true, false_iff]
        intro h; cases h
      | cons d s2 =>
        simp only [rmatch, Bool.and_eq_true, beq_iff_eq]
        constructor
        · rintro ⟨rfl, h⟩
          exact GMatch.lit c ts s2 ((ih s2).mp h)
        · intro h
          cases h with
          | lit c ts s2 h2 => exact ⟨rfl, (ih s2).mpr h2⟩

/-! ## Claim theorems -/

/-- The cleanup loop computes, in insertion order, exactly the stored
cleanups and exactly one report per failing cleanup. -/
theorem runCleanups_eq (fails : Nat → Bool) (l : List PluginEntry) :
    LogzAIBase.runCleanups fails l =
      (l.filterMap (fun e => e.cleanupId),
       l.filterMap (fun e =>
         match e.cleanupId with
         | some c =>
           if fails c then some ("Error cleaning up plugin " ++ e.name)
           else none
         | none => none)) := by
  induction l with
  | nil => rfl
  | cons e rest ih =>
    cases h : e.cleanupId with
    | none => simp [LogzAIBase.runCleanups, h, ih, List.filterMap_cons]
    | some c =>
      by_cases hf : fails c <;>
        simp [LogzAIBase.runCleanups, h, ih, List.filterMap_cons, hf]

/-- C1: for every registry state and registered sequence, awaiting
`shutdown()` invokes each stored cleanup in exact insertion order; a
cleanup that throws or rejects is caught and reported without preventing
any later cleanup (the invoked list does not depend on which cleanups
fail) or shutdown from completing, and afterwards the registry is empty. -/
theorem shutdown_drains_in_order (fails : Nat → Bool)
    (registry : List PluginEntry) :
    (LogzAIBase.shutdown fails registry).invoked =
      registry.filterMap (fun e => e.cleanupId) ∧
    (LogzAIBase.shutdown fails registry).reportedErrors =
      registry.filterMap (fun e =>
        match e.cleanupId with
        | some c =>
          if fails c then some ("Error cleaning up plugin " ++ e.name)
          else none
        | none => none) ∧
    (LogzAIBase.shutdown fails registry).registry = [] := by
  refine ⟨?_, ?_, rfl⟩ <;>
    simp [LogzAIBase.shutdown, runCleanups_eq]

/-- C2: registering a fresh name with a plugin setup that throws (as the
Express plugin does when `config.app` is absent) leaves the registry
unchanged — no entry for the name exists afterwards — and the error
propagates to the caller of `plugin()`. -/
theorem plugin_throw_no_registration (registry : List PluginEntry)
    (name e : String) (pluginFn : Except String (Option Nat))
    (hfresh : LogzAIBase.hasPlugin registry name = false)
    (hthrow : pluginFn = Except.error e) :
    (LogzAIBase.plugin registry name pluginFn).registry = registry ∧
    LogzAIBase.hasPlugin
      (LogzAIBase.plugin registry name pluginFn).registry name = false ∧
    (LogzAIBase.plugin registry name pluginFn).thrown = some e ∧
    (LogzAIBase.plugin registry name pluginFn).warned = false ∧
    (∀ (loggerInit : Bool) (cfg : ExpressPluginConfig), cfg.app = false →
      expressPluginSetup loggerInit (some cfg) =
        Except.error ("expressPlugin: app instance is required in config")) ∧
    (∀ loggerInit : Bool, expressPluginSetup loggerInit none =
      Except.error ("expressPlugin: app instance is required in config")) := by
  subst hthrow
  refine ⟨?_, ?_, ?_, ?_, ?_, ?_⟩
  · simp [LogzAIBase.plugin, hfresh]
  · simp [LogzAIBase.plugin, hfresh]
  · simp [LogzAIBase.plugin, hfresh]
  · simp [LogzAIBase.plugin, hfresh]
  · intro loggerInit cfg happ
    simp [expressPluginSetup, happ]
  · intro loggerInit
    rfl

/-- C2 witness: registering the Express plugin without a config on an
empty registry throws the configuration error and stores nothing. -/
theorem plugin_throw_no_registration_witness :
    (LogzAIBase.plugin [] "express" (expressPluginSetup true none)).registry
      = [] ∧
    LogzAIBase.hasPlugin
      (LogzAIBase.plugin [] "express"
        (expressPluginSetup true none)).registry "express" = false ∧
    (LogzAIBase.plugin [] "express" (expressPluginSetup true none)).thrown =
      some ("expressPlugin: app instance is required in config") ∧
    (LogzAIBase.plugin [] "express" (expressPluginSetup true none)).warned =
      false ∧
    (∀ (loggerInit : Bool) (cfg : ExpressPluginConfig), cfg.app = false →
      expressPluginSetup loggerInit (some cfg) =
        Except.error ("expressPlugin: app instance is required in config")) ∧
    (∀ loggerInit : Bool, expressPluginSetup loggerInit none =
      Except.error ("expressPlugin: app instance is required in config")) :=
  plugin_throw_no_registration []
    "express" "expressPlugin: app instance is required in config"
    (expressPluginSetup true none) rfl rfl

/-- C3: registering an already-present name warns and returns without
throwing, never invokes the second setup function, and leaves the registry
(so the first entry and its cleanup) unchanged; moreover registration
always preserves name-uniqueness of the registry. -/
theorem plugin_duplicate_rejected (registry : List PluginEntry)
    (name : String) (pluginFn : Except String (Option Nat))
    (hdup : LogzAIBase.hasPlugin registry name = true) :
    LogzAIBase.plugin registry name pluginFn =
      ⟨registry, none, true, false⟩ ∧
    (∀ (r : List PluginEntry) (n : String)
        (p : Except String (Option Nat)),
      (r.map (fun e => e.name)).Nodup →
      (((LogzAIBase.plugin r n p).registry).map
        (fun e => e.name)).Nodup) := by
  constructor
  · simp [LogzAIBase.plugin, hdup]
  · intro r n p hnd
    by_cases h : LogzAIBase.hasPlugin r n = true
    · simpa [LogzAIBase.plugin, h] using hnd
    · have hmem : n ∉ r.map (fun e => e.name) := by
        simp only [LogzAIBase.hasPlugin, List.any_eq_true, beq_iff_eq,
          Bool.not_eq_true] at h
        simp only [List.mem_map, not_exists]
        intro e
        rintro ⟨he, rfl⟩
        exact h ⟨e, he, rfl⟩
      cases p with
      | error e => simpa [LogzAIBase.plugin, h] using hnd
      | ok c =>
        simp only [LogzAIBase.plugin, h, Bool.false_eq_true, if_false,
          List.map_append]
        simp [List.nodup_append, hnd, hmem]

/-- C3 witness: a second registration under the name `p` leaves the
original entry (with cleanup id 1) untouched and invokes nothing. -/
theorem plugin_duplicate_rejected_witness :
    LogzAIBase.plugin [⟨"p", some 1⟩] "p" (Except.ok none) =
      ⟨[⟨"p", some 1⟩], none, true, false⟩ ∧
    (∀ (r : List PluginEntry) (n : String)
        (p : Except String (Option Nat)),
      (r.map (fun e => e.name)).Nodup →
      (((LogzAIBase.plugin r n p).registry).map
        (fun e => e.name)).Nodup) :=
  plugin_duplicate_rejected [⟨"p", some 1⟩] "p" (Except.ok none) rfl

/-- C9: each of the five logging methods throws exactly when the facade
was never initialized (`this.logger` absent); on an initialized facade the
call produces a record and never throws. -/
theorem logging_throws_iff_uninitialized (loggerInit : Bool) (msg : String)
    (attrs : Attrs) (err : JsError) :
    (throwsExc (LogzAIBase.info loggerInit msg attrs) = true ↔
      loggerInit = false) ∧
    (throwsExc (LogzAIBase.debug loggerInit msg attrs) = true ↔
      loggerInit = false) ∧
    (throwsExc (LogzAIBase.warn loggerInit msg attrs) = true ↔
      loggerInit = false) ∧
    (throwsExc (LogzAIBase.error loggerInit msg attrs) = true ↔
      loggerInit = false) ∧
    (throwsExc (LogzAIBase.exception loggerInit msg err attrs) = true ↔
      loggerInit = false) := by
  cases loggerInit <;>
    simp [LogzAIBase.info, LogzAIBase.debug, LogzAIBase.warn,
      LogzAIBase.error, LogzAIBase.exception, LogzAIBase.emit, throwsExc]

/-- C10: on an initialized facade, `exception(msg, error, attrs)` emits at
ERROR severity with attributes equal to `attrs` extended by the four
enrichment keys (`is_exception`, `exception.type`, `exception.message`,
`exception.stacktrace`, the last defaulting to the empty string); the four
keys override identically-named keys of `attrs`, every other key keeps the
value it has in `attrs`. -/
theorem exception_enrichment (msg : String) (err : JsError)
    (attrs : Attrs) :
    LogzAIBase.exception true msg err attrs =
      Except.ok ⟨msg, SeverityNumber.error,
        LogzAIBase.exceptionAttrs attrs err⟩ ∧
    lookupAttr (LogzAIBase.exceptionAttrs attrs err) "is_exception" =
      some (AttrVal.bool true) ∧
    lookupAttr (LogzAIBase.exceptionAttrs attrs err) "exception.type" =
      some (AttrVal.str err.name) ∧
    lookupAttr (LogzAIBase.exceptionAttrs attrs err) "exception.message" =
      some (AttrVal.str err.message) ∧
    lookupAttr (LogzAIBase.exceptionAttrs attrs err)
      "exception.stacktrace" = some (AttrVal.str (err.stack.getD "")) ∧
    (∀ k : String, k ≠ "is_exception" → k ≠ "exception.type" →
      k ≠ "exception.message" → k ≠ "exception.stacktrace" →
      lookupAttr (LogzAIBase.exceptionAttrs attrs err) k =
        lookupAttr attrs k) := by
  refine ⟨rfl, ?_, ?_, ?_, ?_, ?_⟩
  · rw [LogzAIBase.exceptionAttrs, lookupAttr_append]
    simp [lookupAttr]
  · rw [LogzAIBase.exceptionAttrs, lookupAttr_append]
    simp [lookupAttr]
  · rw [LogzAIBase.exceptionAttrs, lookupAttr_append]
    simp [lookupAttr]
  · rw [LogzAIBase.exceptionAttrs, lookupAttr_append]
    simp [lookupAttr]
  · intro k h1 h2 h3 h4
    rw [LogzAIBase.exceptionAttrs, lookupAttr_append]
    simp [lookupAttr, Ne.symm h1, Ne.symm h2, Ne.symm h3, Ne.symm h4]

/-- C7: a request is skipped iff some `skipPaths` pattern matches its
path — a wildcard-free pattern by exact string equality, a pattern with
`*` as the anchored regular expression with each `*` replaced by
"match any sequence" — and a skipped request starts no span, emits no
request log, and never patches the response finalizer (so no response
logs).  With `skipPaths = ['/health', '/metrics/*']`, `/metrics/cpu` is
skipped while `/metrics` is not. -/
theorem skipPaths_matching (skipPaths : List String) (path : String) :
    (shouldSkipPath skipPaths path = true ↔
      ∃ sp ∈ skipPaths,
        (sp.toList.contains '*' = false ∧ path = sp) ∨
        (sp.toList.contains '*' = true ∧
          GMatch (compileGlob sp.toList) path.toList)) ∧
    (∀ (loggerInit : Bool) (config : ExpressPluginConfig) (req : Req),
      shouldSkipPath config.skipPaths req.path = true →
        (loggingMiddleware loggerInit config req).spanCreated = false ∧
        (loggingMiddleware loggerInit config req).logs = [] ∧
        (loggingMiddleware loggerInit config req).endPatched = false) ∧
    shouldSkipPath ["/health", "/metrics/*"] "/metrics/cpu" = true ∧
    shouldSkipPath ["/health", "/metrics/*"] "/metrics" = false := by
  refine ⟨?_, ?_, by decide, by decide⟩
  · rw [shouldSkipPath, List.any_eq_true]
    constructor
    · rintro ⟨sp, hsp, hmatch⟩
      refine ⟨sp, hsp, ?_⟩
      by_cases hw : sp.toList.contains '*' = true
      · rw [if_pos hw] at hmatch
        exact Or.inr ⟨hw, (rmatch_iff_GMatch _ _).mp hmatch⟩
      · rw [if_neg hw] at hmatch
        refine Or.inl ⟨by simpa using hw, ?_⟩
        exact eq_of_beq hmatch
    · rintro ⟨sp, hsp, ⟨hw, rfl⟩ | ⟨hw, hm⟩⟩
      · refine ⟨path, hsp, ?_⟩
        rw [if_neg (by simpa using hw)]
        exact beq_self_eq_true path
      · exact ⟨sp, hsp, by
          simp only [hw, if_true]
          exact (rmatch_iff_GMatch _ _).mpr hm⟩
  · intro loggerInit config req hskip
    simp [loggingMiddleware, hskip]

/-- Any record built on the response-summary attributes carries the
summary marker. -/
theorem isResponseSummary_mk (b : String) (s : SeverityNumber)
    (config : ExpressPluginConfig) (req : Req)
    (statusCode durationMs : Nat) (responseBody : Option String) :
    isResponseSummary ⟨b, s,
      responseLogAttrs config req statusCode durationMs responseBody⟩ =
      true := by
  simp [isResponseSummary, lookupAttr_responseLogAttrs_logType]

/-- A slow-request record is not a response summary: its `log.type` is
overridden to `http.slow_request`. -/
theorem isResponseSummary_slow_mk (b : String) (s : SeverityNumber)
    (config : ExpressPluginConfig) (req : Req)
    (statusCode durationMs threshold : Nat)
    (responseBody : Option String) :
    isResponseSummary ⟨b, s,
      responseLogAttrs config req statusCode durationMs responseBody ++
        [("log.type", AttrVal.str ("http.slow_request")),
         ("http.threshold_ms", AttrVal.num threshold)]⟩ = false := by
  simp [isResponseSummary, lookupAttr_slowAttrs_logType]

/-- A response-summary record is not a slow-request record. -/
theorem isSlowRequestLog_resp_mk (b : String) (s : SeverityNumber)
    (config : ExpressPluginConfig) (req : Req)
    (statusCode durationMs : Nat) (responseBody : Option String) :
    isSlowRequestLog ⟨b, s,
      responseLogAttrs config req statusCode durationMs responseBody⟩ =
      false := by
  simp [isSlowRequestLog, lookupAttr_responseLogAttrs_logType]

/-- Any record built on the slow-request attributes carries the
slow-request marker. -/
theorem isSlowRequestLog_slow_mk (b : String) (s : SeverityNumber)
    (config : ExpressPluginConfig) (req : Req)
    (statusCode durationMs threshold : Nat)
    (responseBody : Option String) :
    isSlowRequestLog ⟨b, s,
      responseLogAttrs config req statusCode durationMs responseBody ++
        [("log.type", AttrVal.str ("http.slow_request")),
         ("http.threshold_ms", AttrVal.num threshold)]⟩ = true := by
  simp [isSlowRequestLog, lookupAttr_slowAttrs_logType]

/-- On an initialized facade the severity-classified summary emission
succeeds and yields the record with the if-chain severity. -/
theorem summaryEmit_eq (statusCode : Nat) (message : String)
    (attrs : Attrs) :
    (if 500 ≤ statusCode then LogzAIBase.error true message attrs
     else if 400 ≤ statusCode then LogzAIBase.warn true message attrs
     else LogzAIBase.info true message attrs) =
      Except.ok ⟨message,
        (if 500 ≤ statusCode then SeverityNumber.error
         else if 400 ≤ statusCode then SeverityNumber.warn
         else SeverityNumber.info), attrs⟩ := by
  by_cases h5 : 500 ≤ statusCode <;> by_cases h4 : 400 ≤ statusCode <;>
    simp [h5, h4, LogzAIBase.error, LogzAIBase.warn, LogzAIBase.info,
      LogzAIBase.emit]

/-- C6: for every finalized, non-skipped request with response logging
enabled (on an initialized facade), exactly one response-summary log is
emitted; its message is `method path -> status  duration s`, its severity
is error for status ≥ 500, warn for 400 ≤ status < 500, info otherwise,
and the span status is set to error exactly when status ≥ 400. -/
theorem responseSummary_once (config : ExpressPluginConfig) (req : Req)
    (statusCode durationMs : Nat) (responseBody : Option String)
    (hlog : config.logResponses = true) :
    (resEnd true config req statusCode durationMs responseBody).logs.filter
        isResponseSummary =
      [⟨responseMessage req statusCode durationMs,
        (if 500 ≤ statusCode then SeverityNumber.error
         else if 400 ≤ statusCode then SeverityNumber.warn
         else SeverityNumber.info),
        responseLogAttrs config req statusCode durationMs responseBody⟩] ∧
    (resEnd true config req statusCode durationMs
        responseBody).spanStatus.code =
      (if 400 ≤ statusCode then SpanStatusCode.error
       else SpanStatusCode.ok) := by
  constructor
  · simp only [resEnd, hlog, if_true, summaryEmit_eq]
    rcases config.slowRequestThreshold with _ | t
    · simp [List.filter, isResponseSummary_mk]
    · by_cases hc : 0 < t ∧ t < durationMs
      · simp only [if_pos hc, LogzAIBase.warn, LogzAIBase.emit]
        simp [List.filter, isResponseSummary_mk, isResponseSummary_slow_mk]
      · simp only [if_neg hc]
        simp [List.filter, isResponseSummary_mk]
  · simp only [resEnd, hlog, if_true, summaryEmit_eq]
    rcases config.slowRequestThreshold with _ | t
    · by_cases h4 : 400 ≤ statusCode <;> simp [h4]
    · by_cases hc : 0 < t ∧ t < durationMs
      · simp only [if_pos hc, LogzAIBase.warn, LogzAIBase.emit]
        by_cases h4 : 400 ≤ statusCode <;> simp [h4]
      · simp only [if_neg hc]
        by_cases h4 : 400 ≤ statusCode <;> simp [h4]

/-- C6 witness: `GET /users/42` returning 404 yields exactly one summary
log, at warn severity, with message `GET /users/42 -> 404  0.00s`, and the
span is marked errored. -/
theorem responseSummary_once_witness :
    (resEnd true ⟨true, true, true, true, none, none, none, [], false, false⟩
        ⟨"GET", "/users/42", "/users/42", none, "localhost", "http",
          none, none, none, none, none⟩ 404 0 none).logs.filter
        isResponseSummary =
      [⟨"GET /users/42 -> 404  0.00s", SeverityNumber.warn,
        responseLogAttrs
          ⟨true, true, true, true, none, none, none, [], false, false⟩
          ⟨"GET", "/users/42", "/users/42", none, "localhost", "http",
            none, none, none, none, none⟩ 404 0 none⟩] ∧
    (resEnd true ⟨true, true, true, true, none, none, none, [], false, false⟩
        ⟨"GET", "/users/42", "/users/42", none, "localhost", "http",
          none, none, none, none, none⟩ 404 0 none).spanStatus.code =
      SpanStatusCode.error :=
  responseSummary_once
    ⟨true, true, true, true, none, none, none, [], false, false⟩
    ⟨"GET", "/users/42", "/users/42", none, "localhost", "http",
      none, none, none, none, none⟩ 404 0 none rfl

/-- C8 counterexample: with response logging disabled the slow-request
branch is never reached — a 1500 ms request against a 1000 ms threshold
emits no log at all, although the claim (quantifying over every finalized,
non-skipped request) promises a dedicated slow-request warn log. -/
theorem slowRequest_needs_logResponses_cex :
    (resEnd true ⟨true, true, false, true, none, none, some 1000, [],
        false, false⟩
      ⟨"GET", "/slow", "/slow", none, "localhost", "http",
        none, none, none, none, none⟩ 200 1500 none).logs = [] := rfl

/-- C8 (amended): for every finalized, non-skipped request with response
logging enabled (on an initialized facade), when a positive
`slowRequestThreshold` is configured and the measured duration exceeds it,
exactly one dedicated warn-level slow-request log is emitted — carrying
the summary attributes plus the marker and the threshold — in addition to
exactly one response-summary log. -/
theorem slowRequest_extra_log (config : ExpressPluginConfig) (req : Req)
    (statusCode durationMs threshold : Nat) (responseBody : Option String)
    (hlog : config.logResponses = true)
    (hthr : config.slowRequestThreshold = some threshold)
    (hpos : 0 < threshold) (hexceed : threshold < durationMs) :
    (resEnd true config req statusCode durationMs responseBody).logs.filter
        isSlowRequestLog =
      [⟨"Slow request detected: " ++ req.method ++ " " ++ req.path,
        SeverityNumber.warn,
        responseLogAttrs config req statusCode durationMs responseBody ++
          [("log.type", AttrVal.str ("http.slow_request")),
           ("http.threshold_ms", AttrVal.num threshold)]⟩] ∧
    ((resEnd true config req statusCode durationMs
        responseBody).logs.filter isResponseSummary).length = 1 := by
  constructor
  · simp only [resEnd, hlog, if_true, summaryEmit_eq, hthr]
    simp only [if_pos (And.intro hpos hexceed), LogzAIBase.warn,
      LogzAIBase.emit]
    simp [List.filter, isSlowRequestLog_resp_mk, isSlowRequestLog_slow_mk]
  · simp only [resEnd, hlog, if_true, summaryEmit_eq, hthr]
    simp only [if_pos (And.intro hpos hexceed), LogzAIBase.warn,
      LogzAIBase.emit]
    simp [List.filter, isResponseSummary_mk, isResponseSummary_slow_mk]

/-- C8 witness: a 1500 ms `GET /slow` against a 1000 ms threshold produces
the response summary and exactly one extra slow-request warn log. -/
theorem slowRequest_extra_log_witness :
    (resEnd true ⟨true, true, true, true, none, none, some 1000, [],
        false, false⟩
      ⟨"GET", "/slow", "/slow", none, "localhost", "http",
        none, none, none, none, none⟩ 200 1500 none).logs.filter
        isSlowRequestLog =
      [⟨"Slow request detected: GET /slow", SeverityNumber.warn,
        responseLogAttrs
          ⟨true, true, true, true, none, none, some 1000, [], false, false⟩
          ⟨"GET", "/slow", "/slow", none, "localhost", "http",
            none, none, none, none, none⟩ 200 1500 none ++
          [("log.type", AttrVal.str ("http.slow_request")),
           ("http.threshold_ms", AttrVal.num 1000)]⟩] ∧
    ((resEnd true ⟨true, true, true, true, none, none, some 1000, [],
        false, false⟩
      ⟨"GET", "/slow", "/slow", none, "localhost", "http",
        none, none, none, none, none⟩ 200 1500 none).logs.filter
        isResponseSummary).length = 1 :=
  slowRequest_extra_log
    ⟨true, true, true, true, none, none, some 1000, [], false, false⟩
    ⟨"GET", "/slow", "/slow", none, "localhost", "http",
      none, none, none, none, none⟩ 200 1500 1000 none rfl rfl
    (by decide) (by decide)

/-- C5: the patched `res.end` has no `try`/`finally`, so on a finalization
where the response-summary logging call throws (facade never initialized —
reachable because the middleware is installed on the app before the setup
log that would have failed the registration), `span.end()` is skipped and
the captured original `res.end` never runs; the claim (and the spec
invariant) promise the span is ended on every control-flow exit. -/
theorem resEnd_throwing_skips_span_end :
    ((resEnd false ⟨true, true, true, true, none, none, none, [], false,
        false⟩
      ⟨"GET", "/users/42", "/users/42", none, "localhost", "http",
        none, none, none, none, none⟩ 200 3 none).thrown =
      some ("logzai not initialized")) ∧
    ((resEnd false ⟨true, true, true, true, none, none, none, [], false,
        false⟩
      ⟨"GET", "/users/42", "/users/42", none, "localhost", "http",
        none, none, none, none, none⟩ 200 3 none).spanEnded = false) ∧
    ((resEnd false ⟨true, true, true, true, none, none, none, [], false,
        false⟩
      ⟨"GET", "/users/42", "/users/42", none, "localhost", "http",
        none, none, none, none, none⟩ 200 3 none).originalEndCalled =
      false) ∧
    ((resEnd false ⟨true, true, true, true, none, none, none, [], false,
        false⟩
      ⟨"GET", "/users/42", "/users/42", none, "localhost", "http",
        none, none, none, none, none⟩ 200 3 none).logs = []) :=
  ⟨rfl, rfl, rfl, rfl⟩

/-- C4 counterexample: with an `errorFilter` rejecting every error and a
previously-installed `window.onerror` hook, the handler emits nothing —
and, contrary to the claim, returns `false` without invoking the previous
hook (the filtered path returns before the chaining code). -/
theorem errorFilter_suppression_cex :
    ((errorHandler true ⟨true, true, some (fun _ => false), none, none⟩
        ⟨"https://app.example/", "TestUA", "2024-01-01T00:00:00.000Z"⟩
        (some true) (some "boom") none none none
        (some ⟨"Error", "boom", none⟩)).logs = []) ∧
    ((errorHandler true ⟨true, true, some (fun _ => false), none, none⟩
        ⟨"https://app.example/", "TestUA", "2024-01-01T00:00:00.000Z"⟩
        (some true) (some "boom") none none none
        (some ⟨"Error", "boom", none⟩)).previousInvoked = false) :=
  ⟨rfl, rfl⟩

/-- C4 (amended): whenever the configured `errorFilter` returns false for
the normalized error, zero exception-log emissions occur for it and the
handler returns `false` immediately — the previously-installed global
error hook is NOT invoked on the suppressed path (it is chained only when
the filter does not suppress). -/
theorem errorFilter_suppression (loggerInit : Bool)
    (config : BrowserPluginConfig) (env : BrowserEnv)
    (previousReturn : Option Bool) (message source : Option String)
    (lineno colno : Option Nat) (error : Option JsError)
    (f : JsError → Bool) (hf : config.errorFilter = some f)
    (hfalse : f (normalizeOnError message error) = false) :
    (errorHandler loggerInit config env previousReturn message source
      lineno colno error).logs = [] ∧
    (errorHandler loggerInit config env previousReturn message source
      lineno colno error).previousInvoked = false ∧
    (errorHandler loggerInit config env previousReturn message source
      lineno colno error).returned = false := by
  refine ⟨?_, ?_, ?_⟩ <;> simp [errorHandler, hf, hfalse]

/-- C4 witness: a filter that rejects everything suppresses logging and
chaining for a synthesized error on an uninstalled previous hook. -/
theorem errorFilter_suppression_witness :
    ((errorHandler false ⟨true, true, some (fun _ => false), none, none⟩
        ⟨"u", "ua", "t"⟩ none (some "m") none none none none).logs =
      []) ∧
    ((errorHandler false ⟨true, true, some (fun _ => false), none, none⟩
        ⟨"u", "ua", "t"⟩ none (some "m") none none none
        none).previousInvoked = false) ∧
    ((errorHandler false ⟨true, true, some (fun _ => false), none, none⟩
        ⟨"u", "ua", "t"⟩ none (some "m") none none none none).returned =
      false) :=
  errorFilter_suppression false
    ⟨true, true, some (fun _ => false), none, none⟩
    ⟨"u", "ua", "t"⟩ none (some "m") none none none none
    (fun _ => false) rfl rfl
